import Mathlib

/-!
Verification of the loan-prediction frontend (src/loan-predictor-frontend/src/App.tsx):
the zod form-validation schema `loanApplicationSchema` and the prediction client
`onSubmit` / `getChartData`, shallowly embedded in Lean.

Numbers are modelled as rationals `ℚ` (the app only ever handles finite decimal
literals, where IEEE doubles and rationals agree).
-/

namespace LoanPredictor

/-! ## JSON values

The service request/response bodies are flat JSON objects whose members are
strings or numbers, so JSON values are modelled by that fragment. -/

/-- A JSON leaf value: a string or a number. -/
inductive JVal where
  | str (s : String)
  | num (q : ℚ)
deriving DecidableEq, Repr

/-- A flat JSON object: an association list from member names to leaf values. -/
abbrev JObj := List (String × JVal)

/-- Extract a JSON string, as JavaScript member access expecting a string. -/
def asStr : JVal → Option String
  | .str s => some s
  | .num _ => none

/-- Extract a JSON number, as JavaScript member access expecting a number. -/
def asNum : JVal → Option ℚ
  | .num q => some q
  | .str _ => none

/-! ## JavaScript number coercion

`z.coerce.number()` applies the JavaScript `Number()` conversion to the raw
form string; `Number("")` is `0` and a non-numeric string gives `NaN`, which
zod then rejects as an invalid type. -/

/-- Numeric value of a digit string, most significant digit first. -/
def digitsNat (cs : List Char) : ℕ :=
  cs.foldl (fun a c => 10 * a + (c.toNat - 48)) 0

/-- Value of an unsigned decimal literal `digits[.digits]`, consuming the whole
input: `"0.5"`, `"1."`, `".5"` parse, while `"."`, `"1a"`, `""` do not —
matching JavaScript `Number()` on such inputs. -/
def unsignedDecimal (cs : List Char) : Option ℚ :=
  let ip := cs.takeWhile (·.isDigit)
  match cs.dropWhile (·.isDigit) with
  | [] => if ip.isEmpty then none else some (digitsNat ip : ℚ)
  | '.' :: fp =>
      if fp.all (·.isDigit) && !(ip.isEmpty && fp.isEmpty) then
        some (mkRat (digitsNat ip * 10 ^ fp.length + digitsNat fp) (10 ^ fp.length))
      else none
  | _ => none

/-- JavaScript `Number()` coercion of a string, restricted to the literals the
form produces: the empty string coerces to `0`; an optional sign followed by a
decimal literal has its value; anything else is `NaN`, modelled as `none`.
(Whitespace padding, hex/binary/exponent literals and `"Infinity"` are outside
every input considered here and are not modelled.) -/
def jsNumber (s : String) : Option ℚ :=
  if s.isEmpty then some 0
  else
    match s.data with
    | '-' :: cs => (unsignedDecimal cs).map (fun q => -q)
    | '+' :: cs => unsignedDecimal cs
    | cs => unsignedDecimal cs

/-- JavaScript `parseFloat`: value of the longest numeric prefix of the string,
`NaN` (`none`) when there is none. Exponent suffixes never occur here. -/
def parseFloatJS (s : String) : Option ℚ :=
  let lead : List Char → Option ℚ := fun cs =>
    let ip := cs.takeWhile (·.isDigit)
    match cs.dropWhile (·.isDigit) with
    | '.' :: rest =>
        let fp := rest.takeWhile (·.isDigit)
        if ip.isEmpty && fp.isEmpty then none
        else some (mkRat (digitsNat ip * 10 ^ fp.length + digitsNat fp) (10 ^ fp.length))
    | _ => if ip.isEmpty then none else some (digitsNat ip : ℚ)
  match s.data with
  | '-' :: cs => (lead cs).map (fun q => -q)
  | '+' :: cs => lead cs
  | cs => lead cs

/-- Remove the first occurrence of a character, as JavaScript
`String.prototype.replace(c, "")` with a single-character pattern. -/
def removeFirstChar (c : Char) : List Char → List Char
  | [] => []
  | x :: xs => if x = c then xs else x :: removeFirstChar c xs

/-- `s.replace("%", "")` from `getChartData`: strip the first percent sign. -/
def stripFirstPercent (s : String) : String :=
  ⟨removeFirstChar '%' s.data⟩

/-! ## The schema fields (`loanApplicationSchema`, App.tsx lines 10–22) -/

/-- The 11 fields of `loanApplicationSchema`, named as in the source. -/
inductive Field where
  | Gender
  | Married
  | Dependents
  | Education
  | Self_Employed
  | ApplicantIncome
  | CoapplicantIncome
  | LoanAmount
  | Loan_Amount_Term
  | Credit_History
  | Property_Area
deriving DecidableEq, Repr

/-- The schema's fields in declaration order (zod reports issues in this order). -/
def allFields : List Field :=
  [.Gender, .Married, .Dependents, .Education, .Self_Employed, .ApplicantIncome,
   .CoapplicantIncome, .LoanAmount, .Loan_Amount_Term, .Credit_History, .Property_Area]

/-- A field-level validation failure, following the spec's error taxonomy:
`InvalidEnum` for a zod `invalid_enum_value` issue, `NotANumber` for the
`invalid_type (received nan)` issue a failed numeric coercion raises, and
`OutOfRange` for a `too_small` / `too_big` / failed-refinement issue, carrying
the issue message. -/
inductive FieldError where
  | InvalidEnum (field : Field) (allowed : List String)
  | NotANumber (field : Field)
  | OutOfRange (field : Field) (msg : String)
deriving DecidableEq, Repr

/-- The declared option set of an enum field (`z.enum([...])`), `none` for the
numeric fields. -/
def enumOptions : Field → Option (List String)
  | .Gender => some ["Male", "Female"]
  | .Married => some ["Yes", "No"]
  | .Education => some ["Graduate", "Not Graduate"]
  | .Self_Employed => some ["Yes", "No"]
  | .Property_Area => some ["Rural", "Urban", "Semiurban"]
  | _ => none

/-- The numeric fields of the schema (those built with `z.coerce.number()`). -/
def numericField : Field → Bool
  | .Dependents => true
  | .ApplicantIncome => true
  | .CoapplicantIncome => true
  | .LoanAmount => true
  | .Loan_Amount_Term => true
  | .Credit_History => true
  | _ => false

/-- `z.enum(opts)`: exact, case-sensitive membership in the declared options. -/
def checkEnum (f : Field) (opts : List String) (raw : String) : List FieldError :=
  if raw ∈ opts then [] else [.InvalidEnum f opts]

/-- `z.coerce.number()` followed by the chain's range checks: a coercion to
`NaN` is an invalid-type issue; otherwise the checks run on the coerced value. -/
def checkNumeric (f : Field) (raw : String) (checks : ℚ → List FieldError) :
    List FieldError :=
  match jsNumber raw with
  | none => [.NotANumber f]
  | some v => checks v

/-- The issues of `Credit_History`'s check chain
`.min(0).max(1).refine(val => [0, 1].includes(val), "Must be 0 or 1")`
on the coerced value: the refinement only runs when the inner number schema
(min/max) succeeded, as zod's `ZodEffects` behaves. -/
def creditHistoryChecks (v : ℚ) : List FieldError :=
  let base :=
    (if v < 0 then
      [FieldError.OutOfRange .Credit_History "Number must be greater than or equal to 0"]
     else []) ++
    (if 1 < v then
      [FieldError.OutOfRange .Credit_History "Number must be less than or equal to 1"]
     else [])
  if base.isEmpty then
    if v ∈ ([0, 1] : List ℚ) then [] else
      [FieldError.OutOfRange .Credit_History "Must be 0 or 1"]
  else base

/-- Per-field validation, one clause per line of `loanApplicationSchema`
(App.tsx lines 11–21), messages as in the source. -/
def checkField : Field → String → List FieldError
  | .Gender, raw => checkEnum .Gender ["Male", "Female"] raw
  | .Married, raw => checkEnum .Married ["Yes", "No"] raw
  | .Dependents, raw =>
      checkNumeric .Dependents raw (fun v =>
        (if v < 0 then [FieldError.OutOfRange .Dependents "Must be 0 or more"] else []) ++
        (if 3 < v then [FieldError.OutOfRange .Dependents "Cannot exceed 3"] else []))
  | .Education, raw => checkEnum .Education ["Graduate", "Not Graduate"] raw
  | .Self_Employed, raw => checkEnum .Self_Employed ["Yes", "No"] raw
  | .ApplicantIncome, raw =>
      checkNumeric .ApplicantIncome raw (fun v =>
        if v < 1 then [FieldError.OutOfRange .ApplicantIncome "Income must be positive"] else [])
  | .CoapplicantIncome, raw =>
      checkNumeric .CoapplicantIncome raw (fun v =>
        if v < 0 then [FieldError.OutOfRange .CoapplicantIncome "Cannot be negative"] else [])
  | .LoanAmount, raw =>
      checkNumeric .LoanAmount raw (fun v =>
        if v < 1 then [FieldError.OutOfRange .LoanAmount "Loan amount must be positive"] else [])
  | .Loan_Amount_Term, raw =>
      checkNumeric .Loan_Amount_Term raw (fun v =>
        if v < 1 then [FieldError.OutOfRange .Loan_Amount_Term "Loan term must be positive"] else [])
  | .Credit_History, raw => checkNumeric .Credit_History raw creditHistoryChecks
  | .Property_Area, raw => checkEnum .Property_Area ["Rural", "Urban", "Semiurban"] raw

/-- All issues of a raw input mapping, in schema field order: zod checks every
field and concatenates the issues (no short-circuit). -/
def fieldErrors (raw : Field → String) : List FieldError :=
  allFields.flatMap (fun f => checkField f (raw f))

/-! ## The normalized record (`LoanApplicationForm`, App.tsx line 25) -/

/-- `Gender: z.enum(['Male', 'Female'])`. -/
inductive Gender where
  | Male
  | Female
deriving DecidableEq, Repr

/-- `Married: z.enum(['Yes', 'No'])`. -/
inductive Married where
  | Yes
  | No
deriving DecidableEq, Repr

/-- `Education: z.enum(['Graduate', 'Not Graduate'])`. -/
inductive Education where
  | Graduate
  | NotGraduate
deriving DecidableEq, Repr

/-- `Self_Employed: z.enum(['Yes', 'No'])`. -/
inductive SelfEmployed where
  | Yes
  | No
deriving DecidableEq, Repr

/-- `Property_Area: z.enum(['Rural', 'Urban', 'Semiurban'])`. -/
inductive PropertyArea where
  | Rural
  | Urban
  | Semiurban
deriving DecidableEq, Repr

/-- The normalized record a successful parse of `loanApplicationSchema`
produces (`LoanApplicationForm` in the source). -/
structure LoanApplication where
  gender : Gender
  married : Married
  dependents : ℚ
  education : Education
  selfEmployed : SelfEmployed
  applicantIncome : ℚ
  coapplicantIncome : ℚ
  loanAmount : ℚ
  loanAmountTerm : ℚ
  creditHistory : ℚ
  propertyArea : PropertyArea
deriving DecidableEq, Repr

/-- String of a `Gender` value, as the enum literal in the schema. -/
def genderToString : Gender → String
  | .Male => "Male"
  | .Female => "Female"

/-- Parse a `Gender` enum literal (exact, case-sensitive). -/
def genderOfString (s : String) : Option Gender :=
  if s = "Male" then some .Male
  else if s = "Female" then some .Female
  else none

/-- String of a `Married` value. -/
def marriedToString : Married → String
  | .Yes => "Yes"
  | .No => "No"

/-- Parse a `Married` enum literal. -/
def marriedOfString (s : String) : Option Married :=
  if s = "Yes" then some .Yes
  else if s = "No" then some .No
  else none

/-- String of an `Education` value. -/
def educationToString : Education → String
  | .Graduate => "Graduate"
  | .NotGraduate => "Not Graduate"

/-- Parse an `Education` enum literal. -/
def educationOfString (s : String) : Option Education :=
  if s = "Graduate" then some .Graduate
  else if s = "Not Graduate" then some .NotGraduate
  else none

/-- String of a `SelfEmployed` value. -/
def selfEmployedToString : SelfEmployed → String
  | .Yes => "Yes"
  | .No => "No"

/-- Parse a `SelfEmployed` enum literal. -/
def selfEmployedOfString (s : String) : Option SelfEmployed :=
  if s = "Yes" then some .Yes
  else if s = "No" then some .No
  else none

/-- String of a `PropertyArea` value. -/
def propertyAreaToString : PropertyArea → String
  | .Rural => "Rural"
  | .Urban => "Urban"
  | .Semiurban => "Semiurban"

/-- Parse a `PropertyArea` enum literal. -/
def propertyAreaOfString (s : String) : Option PropertyArea :=
  if s = "Rural" then some .Rural
  else if s = "Urban" then some .Urban
  else if s = "Semiurban" then some .Semiurban
  else none

/-- Build the normalized record from the raw input: each enum field parsed to
its literal, each numeric field coerced as `z.coerce.number()` does. Succeeds
exactly on the inputs whose per-field parses all succeed. -/
def buildApp (raw : Field → String) : Option LoanApplication := do
  let g ← genderOfString (raw .Gender)
  let m ← marriedOfString (raw .Married)
  let d ← jsNumber (raw .Dependents)
  let e ← educationOfString (raw .Education)
  let se ← selfEmployedOfString (raw .Self_Employed)
  let ai ← jsNumber (raw .ApplicantIncome)
  let ci ← jsNumber (raw .CoapplicantIncome)
  let la ← jsNumber (raw .LoanAmount)
  let lt ← jsNumber (raw .Loan_Amount_Term)
  let ch ← jsNumber (raw .Credit_History)
  let pa ← propertyAreaOfString (raw .Property_Area)
  pure ⟨g, m, d, e, se, ai, ci, la, lt, ch, pa⟩

/-- The validator contract of the spec:
`validate(raw) → Result<LoanApplication, sequence of FieldError>`, realized by
`loanApplicationSchema.parse`: all issues collected in field order, the
normalized record returned when there is none. -/
def validate (raw : Field → String) : Except (List FieldError) LoanApplication :=
  match fieldErrors raw, buildApp raw with
  | [], some a => .ok a
  | errs, _ => .error errs

/-- The per-field constraints of the schema on an already-normalized record
(§3 of the spec): what `checkField` enforces beyond coercibility. -/
def validApp (a : LoanApplication) : Prop :=
  0 ≤ a.dependents ∧ a.dependents ≤ 3 ∧
  1 ≤ a.applicantIncome ∧ 0 ≤ a.coapplicantIncome ∧
  1 ≤ a.loanAmount ∧ 1 ≤ a.loanAmountTerm ∧
  (a.creditHistory = 0 ∨ a.creditHistory = 1)

instance : DecidablePred validApp := fun a => by
  unfold validApp
  infer_instance

/-! ## Wire serialization (`JSON.stringify(data)`, App.tsx line 64)

The validated record is serialized with its schema field names — the members
of the JSON request body in `onSubmit`. -/

/-- Serialize a `LoanApplication` to the JSON request object, member names
exactly as the schema declares them. -/
def toWire (a : LoanApplication) : JObj :=
  [("Gender", .str (genderToString a.gender)),
   ("Married", .str (marriedToString a.married)),
   ("Dependents", .num a.dependents),
   ("Education", .str (educationToString a.education)),
   ("Self_Employed", .str (selfEmployedToString a.selfEmployed)),
   ("ApplicantIncome", .num a.applicantIncome),
   ("CoapplicantIncome", .num a.coapplicantIncome),
   ("LoanAmount", .num a.loanAmount),
   ("Loan_Amount_Term", .num a.loanAmountTerm),
   ("Credit_History", .num a.creditHistory),
   ("Property_Area", .str (propertyAreaToString a.propertyArea))]

/-- Parse a JSON object back into a `LoanApplication` through the same
field-name mapping used by `toWire`. -/
def parseWire (o : JObj) : Option LoanApplication := do
  let g ← ((o.lookup "Gender").bind asStr).bind genderOfString
  let m ← ((o.lookup "Married").bind asStr).bind marriedOfString
  let d ← (o.lookup "Dependents").bind asNum
  let e ← ((o.lookup "Education").bind asStr).bind educationOfString
  let se ← ((o.lookup "Self_Employed").bind asStr).bind selfEmployedOfString
  let ai ← (o.lookup "ApplicantIncome").bind asNum
  let ci ← (o.lookup "CoapplicantIncome").bind asNum
  let la ← (o.lookup "LoanAmount").bind asNum
  let lt ← (o.lookup "Loan_Amount_Term").bind asNum
  let ch ← (o.lookup "Credit_History").bind asNum
  let pa ← ((o.lookup "Property_Area").bind asStr).bind propertyAreaOfString
  pure ⟨g, m, d, e, se, ai, ci, la, lt, ch, pa⟩

/-! ## The prediction client (`onSubmit`, App.tsx lines 53–80) -/

/-- An HTTP response as `onSubmit` observes it: status code, status text, and
the outcome of `response.json()` — `none` when the body is not parseable JSON
(the parse rejects and the failure is caught), otherwise the parsed object. -/
structure HttpResponse where
  status : ℕ
  statusText : String
  jsonBody : Option JObj
deriving DecidableEq, Repr

/-- `Response.ok` of the fetch API: status in the 2xx success range. -/
def respOk (r : HttpResponse) : Bool :=
  200 ≤ r.status && r.status ≤ 299

/-- Failure of a submission attempt, after the spec's taxonomy: a non-2xx
status carries the code and text (the `throw new Error` of line 68); an
unparseable 2xx body is a malformed response (its JavaScript `SyntaxError`
detail is abstracted away). -/
inductive SubmitError where
  | serviceError (status : ℕ) (statusText : String)
  | malformedResponse
deriving DecidableEq, Repr

/-- The message `onSubmit` surfaces for a failure, as built at line 68 for a
service error (the malformed-response text stands for the caught JSON parse
exception's message). -/
def submitErrorMessage : SubmitError → String
  | .serviceError status statusText =>
      "API Error: " ++ statusText ++ " (Status: " ++ toString status ++ ")"
  | .malformedResponse => "Unexpected end of JSON input"

/-- The response handling of `onSubmit` (lines 67–72): a non-2xx status throws
the service error; an unparseable body's exception propagates as a malformed
response; otherwise the parsed object is taken as the `PredictionResult`
without any field check (`const result: PredictionResult = await
response.json()` is a compile-time cast only). -/
def submit (r : HttpResponse) : Except SubmitError JObj :=
  if respOk r then
    match r.jsonBody with
    | none => .error .malformedResponse
    | some body => .ok body
  else
    .error (.serviceError r.status r.statusText)

/-- What `fetch` delivered: a response, or a thrown transport failure with the
exception's message. -/
inductive FetchOutcome where
  | response (r : HttpResponse)
  | transportFailure (msg : String)
deriving DecidableEq, Repr

/-- The three `useState` slots of `App` (lines 36–38). -/
structure AppState where
  predictionResult : Option JObj
  apiError : Option String
  isLoading : Bool
deriving DecidableEq, Repr

/-- The initial state: both slots `null`, not loading. -/
def initialAppState : AppState :=
  { predictionResult := none, apiError := none, isLoading := false }

/-- One submission attempt (`onSubmit`, lines 53–80) as a state transition:
both the previous error and the previous result are cleared first (lines
55–56), then exactly one slot is set from the outcome, and the `finally`
clears the loading flag. -/
def onSubmitStep (prev : AppState) (o : FetchOutcome) : AppState :=
  let cleared : AppState :=
    { prev with isLoading := true, apiError := none, predictionResult := none }
  match o with
  | .transportFailure msg =>
      { cleared with apiError := some msg, isLoading := false }
  | .response r =>
      match submit r with
      | .ok body => { cleared with predictionResult := some body, isLoading := false }
      | .error e =>
          { cleared with apiError := some (submitErrorMessage e), isLoading := false }

/-- `getChartData` (lines 82–86) on the stored result: `[]` when no result is
present; otherwise the confidence string has its first `%` stripped and is
parsed with `parseFloat`. A stored result whose `confidence_probability` is
missing or not a string throws in JavaScript, and a non-numeric string charts
`NaN`; both are modelled as `none`. -/
def getChartData (stored : Option JObj) : Option (List (String × ℚ)) :=
  match stored with
  | none => some []
  | some r =>
      match r.lookup "confidence_probability" with
      | some (.str s) =>
          (parseFloatJS (stripFirstPercent s)).map (fun v => [("Confidence", v)])
      | _ => none

/-! ## Concrete fixtures used by the theorems -/

/-- The raw input with every field the blank string. -/
def blankRaw : Field → String := fun _ => ""

/-- The issue list `validate` produces on `blankRaw` (established below):
the five enum fields reject the blank string, and of the numeric fields only
those whose range excludes `0` do, since `Number("")` is `0`. -/
def blankErrors : List FieldError :=
  [.InvalidEnum .Gender ["Male", "Female"],
   .InvalidEnum .Married ["Yes", "No"],
   .InvalidEnum .Education ["Graduate", "Not Graduate"],
   .InvalidEnum .Self_Employed ["Yes", "No"],
   .OutOfRange .ApplicantIncome "Income must be positive",
   .OutOfRange .LoanAmount "Loan amount must be positive",
   .OutOfRange .Loan_Amount_Term "Loan term must be positive",
   .InvalidEnum .Property_Area ["Rural", "Urban", "Semiurban"]]

/-- A 2xx response whose JSON body lacks the `confidence_probability` member. -/
def bodyMissingConf : JObj :=
  [("prediction", .num 1), ("status", .str "Approved")]

/-- The 200 response carrying `bodyMissingConf`. -/
def respMissingConf : HttpResponse :=
  { status := 200, statusText := "OK", jsonBody := some bodyMissingConf }

/-- The mocked success body of the spec's test:
`{"prediction": 1, "status": "Approved", "confidence_probability": "82.5%"}`. -/
def body82 : JObj :=
  [("prediction", .num 1), ("status", .str "Approved"),
   ("confidence_probability", .str "82.5%")]

/-- The 200 response carrying `body82`. -/
def resp82 : HttpResponse :=
  { status := 200, statusText := "OK", jsonBody := some body82 }

/-- A mocked HTTP 500 response. -/
def resp500 : HttpResponse :=
  { status := 500, statusText := "Internal Server Error", jsonBody := some [] }

/-- A schema-valid sample application. -/
def sampleApp : LoanApplication :=
  { gender := .Male, married := .No, dependents := 0, education := .Graduate,
    selfEmployed := .No, applicantIncome := 5000, coapplicantIncome := 0,
    loanAmount := 120, loanAmountTerm := 360, creditHistory := 1,
    propertyArea := .Urban }

/-! ## Theorems -/

/-- C1 (counterexample): on the all-blank input, `validate` does not return 11
field errors — it returns the 8-element `blankErrors`, because `Number("")`
coerces to `0`, which `Dependents`, `CoapplicantIncome` and `Credit_History`
accept. -/
theorem blank_input_yields_eight_errors_not_eleven :
    validate blankRaw = Except.error blankErrors ∧
    blankErrors.length = 8 ∧ blankErrors.length ≠ 11 := by
  refine ⟨rfl, rfl, ?_⟩
  decide

/-- C1 (amended): on the all-blank input, `validate` returns exactly one error
for each of the 8 fields that reject the blank string — the five enum fields
plus `ApplicantIncome`, `LoanAmount` and `Loan_Amount_Term` — in schema order,
while `Dependents`, `CoapplicantIncome` and `Credit_History` accept the blank
string (it coerces to `0`, which satisfies their constraints). -/
theorem blank_input_error_list :
    validate blankRaw = Except.error blankErrors ∧
    checkField .Dependents "" = [] ∧
    checkField .CoapplicantIncome "" = [] ∧
    checkField .Credit_History "" = [] := by
  exact ⟨rfl, rfl, rfl, rfl⟩

/-- C2 (counterexample): the empty string is not rejected as `NotANumber` — it
coerces to `0`, so `Dependents` accepts it outright and `ApplicantIncome`
rejects it with its range error, not `NotANumber`. -/
theorem empty_string_coerces_to_zero_not_nan :
    jsNumber "" = some 0 ∧
    checkField .Dependents "" = [] ∧
    checkField .ApplicantIncome "" =
      [.OutOfRange .ApplicantIncome "Income must be positive"] := by
  exact ⟨rfl, rfl, rfl⟩

/-- C2 (amended): for every numeric field, a raw string whose `Number()`
coercion is `NaN` is rejected with exactly `NotANumber(field)`; the empty
string is not such a string — it coerces to `0` and is range-checked instead. -/
theorem nan_coercion_rejected_for_numeric_fields (f : Field) (s : String)
    (hf : numericField f = true) (hs : jsNumber s = none) :
    checkField f s = [.NotANumber f] := by
  cases f <;> simp_all [numericField, checkField, checkNumeric]

/-- Witness for `nan_coercion_rejected_for_numeric_fields` at `Dependents`,
`"abc"`. -/
theorem nan_coercion_rejected_witness :
    checkField .Dependents "abc" = [.NotANumber .Dependents] :=
  nan_coercion_rejected_for_numeric_fields .Dependents "abc" rfl rfl

/-- C3 (counterexample): a 2xx response whose parsed body lacks
`confidence_probability` is not turned into a `MalformedResponse` error —
`onSubmit` performs no field check (`const result: PredictionResult = await
response.json()` is a compile-time cast only), so `submit` accepts the body
as the result. -/
theorem missing_confidence_body_accepted :
    submit respMissingConf = Except.ok bodyMissingConf ∧
    bodyMissingConf.lookup "confidence_probability" = none := by
  exact ⟨rfl, rfl⟩

/-- C3 (amended): when `submit` receives a 2xx response whose body cannot be
parsed as JSON, it returns a `MalformedResponse` error rather than a
`PredictionResult`; a parseable 2xx body, however, is returned as the result
without any check for the `prediction`, `status` or `confidence_probability`
members. -/
theorem unparseable_body_is_malformed_response (r : HttpResponse)
    (hok : respOk r = true) (hbody : r.jsonBody = none) :
    submit r = Except.error .malformedResponse := by
  simp [submit, hok, hbody]

/-- Witness for `unparseable_body_is_malformed_response` at a 200 response
with an unparseable body. -/
theorem unparseable_body_witness :
    submit { status := 200, statusText := "OK", jsonBody := none } =
      Except.error .malformedResponse :=
  unparseable_body_is_malformed_response _ rfl rfl

/-- C5: every response with a status outside the 2xx range makes `submit`
return a `ServiceError` carrying the status code and status text, and the
attempt ends with the error message surfaced in the error slot — never an
unhandled fault (the transition is total). -/
theorem non_2xx_yields_service_error (r : HttpResponse)
    (h : respOk r = false) :
    submit r = Except.error (.serviceError r.status r.statusText) ∧
    ∀ prev, (onSubmitStep prev (.response r)).apiError =
        some (submitErrorMessage (.serviceError r.status r.statusText)) ∧
      (onSubmitStep prev (.response r)).predictionResult = none := by
  have hsub : submit r = Except.error (.serviceError r.status r.statusText) := by
    simp [submit, h]
  refine ⟨hsub, fun prev => ?_⟩
  simp [onSubmitStep, hsub]

/-- Witness for `non_2xx_yields_service_error` at the mocked HTTP 500
response. -/
theorem non_2xx_witness :
    submit resp500 =
      Except.error (.serviceError 500 "Internal Server Error") :=
  (non_2xx_yields_service_error resp500 rfl).1

/-- The `Credit_History` check chain passes exactly the coerced values `0`
and `1`. -/
theorem creditHistoryChecks_eq_nil (v : ℚ) :
    creditHistoryChecks v = [] ↔ v = 0 ∨ v = 1 := by
  unfold creditHistoryChecks
  by_cases h0 : v < 0
  · have hne : ¬(v = 0 ∨ v = 1) := by rintro (rfl | rfl) <;> norm_num at h0
    simp [h0, hne]
  · by_cases h1 : 1 < v
    · have hne : ¬(v = 0 ∨ v = 1) := by rintro (rfl | rfl) <;> norm_num at h1
      simp [h0, h1, hne]
    · by_cases hm : v = 0 ∨ v = 1 <;> simp [h0, h1, hm]

/-- C4: a `Credit_History` raw value is accepted exactly when it coerces to
`0` or to `1`; in particular `0.5` fails the refinement (membership in the
interval `[0, 1]` is not sufficient) and `2` fails the `max` check. -/
theorem credit_history_exactly_zero_or_one :
    (∀ s v, jsNumber s = some v →
      (checkField .Credit_History s = [] ↔ v = 0 ∨ v = 1)) ∧
    checkField .Credit_History "0" = [] ∧
    checkField .Credit_History "1" = [] ∧
    checkField .Credit_History "0.5" =
      [.OutOfRange .Credit_History "Must be 0 or 1"] ∧
    checkField .Credit_History "2" =
      [.OutOfRange .Credit_History "Number must be less than or equal to 1"] := by
  refine ⟨fun s v h => ?_, by decide, by decide, by decide, by decide⟩
  simp [checkField, checkNumeric, h, creditHistoryChecks_eq_nil]

/-- Witness for `credit_history_exactly_zero_or_one` at the raw value `"1"`. -/
theorem credit_history_witness :
    checkField .Credit_History "1" = [] ↔ (1 : ℚ) = 0 ∨ (1 : ℚ) = 1 :=
  credit_history_exactly_zero_or_one.1 "1" 1 (by decide)

/-- C6: every enum field accepts exactly the declared literal options
(case-sensitive string equality) and rejects anything else with
`InvalidEnum(field, allowedValues)`. -/
theorem enum_fields_exact_membership (f : Field) (opts : List String)
    (s : String) (h : enumOptions f = some opts) :
    checkField f s = if s ∈ opts then [] else [.InvalidEnum f opts] := by
  cases f <;> simp_all [enumOptions, checkField, checkEnum]

/-- Witness for `enum_fields_exact_membership`: the lowercase `"male"` is not
an exact match for `Gender` and is rejected with `InvalidEnum`. -/
theorem enum_fields_witness :
    checkField .Gender "male" = [.InvalidEnum .Gender ["Male", "Female"]] := by
  rw [enum_fields_exact_membership .Gender ["Male", "Female"] "male" rfl]
  decide

/-- A `min`-style check (`if v < b then [error] else []`) passes exactly when
`b ≤ v`. -/
theorem min_check_eq_nil (f : Field) (b : ℚ) (msg : String) (v : ℚ) :
    (if v < b then [FieldError.OutOfRange f msg] else []) = [] ↔ b ≤ v := by
  by_cases hv : v < b
  · rw [if_pos hv]
    constructor
    · intro h2
      exact absurd h2 (List.cons_ne_nil _ _)
    · intro h2
      exact absurd hv (not_lt.mpr h2)
  · rw [if_neg hv]
    exact iff_of_true rfl (not_lt.mp hv)

/-- C7: the boundary values `Dependents = 0` and `3` are accepted while `4`
and `-1` are rejected, and the other numeric fields pass exactly on coerced
values meeting their bounds: `≥ 1` for `ApplicantIncome`, `LoanAmount` and
`Loan_Amount_Term`, `≥ 0` for `CoapplicantIncome`. -/
theorem numeric_bounds :
    checkField .Dependents "0" = [] ∧ checkField .Dependents "3" = [] ∧
    checkField .Dependents "4" ≠ [] ∧ checkField .Dependents "-1" ≠ [] ∧
    ∀ s v, jsNumber s = some v →
      ((checkField .ApplicantIncome s = [] ↔ 1 ≤ v) ∧
       (checkField .LoanAmount s = [] ↔ 1 ≤ v) ∧
       (checkField .Loan_Amount_Term s = [] ↔ 1 ≤ v) ∧
       (checkField .CoapplicantIncome s = [] ↔ 0 ≤ v)) := by
  refine ⟨by decide, by decide, by decide, by decide, fun s v h => ?_⟩
  refine ⟨?_, ?_, ?_, ?_⟩ <;>
    · simp only [checkField, checkNumeric, h]
      exact min_check_eq_nil _ _ _ v

/-- Witness for `numeric_bounds` at the raw value `"1"`. -/
theorem numeric_bounds_witness :
    checkField .ApplicantIncome "1" = [] ↔ (1 : ℚ) ≤ 1 :=
  (numeric_bounds.2.2.2.2 "1" 1 (by decide)).1

/-- C8: serializing a valid `LoanApplication` to the wire object with the
exact schema member names and parsing it back through the same field-name
mapping recovers the identical record. -/
theorem wire_roundtrip (a : LoanApplication) (_h : validApp a) :
    parseWire (toWire a) = some a := by
  obtain ⟨g, m, d, e, se, ai, ci, la, lt, ch, pa⟩ := a
  cases g <;> cases m <;> cases e <;> cases se <;> cases pa <;> rfl

/-- Witness for `wire_roundtrip` at `sampleApp`. -/
theorem wire_roundtrip_witness :
    validApp sampleApp ∧ parseWire (toWire sampleApp) = some sampleApp :=
  ⟨by decide, wire_roundtrip sampleApp (by decide)⟩

/-- C9: on the mocked success body, `submit` returns the parsed result, whose
`status` member is `"Approved"`, the result is stored in the prediction slot,
and the chart-ready confidence value — the percentage string with the `%`
stripped, parsed by `parseFloat` — is `82.5`. -/
theorem approved_response_parsed_with_confidence :
    submit resp82 = Except.ok body82 ∧
    body82.lookup "status" = some (.str "Approved") ∧
    (onSubmitStep initialAppState (.response resp82)).predictionResult =
      some body82 ∧
    getChartData (some body82) = some [("Confidence", (82.5 : ℚ))] := by
  have h : (82.5 : ℚ) = mkRat 165 2 := by norm_num [mkRat, Rat.normalize]
  refine ⟨rfl, rfl, rfl, ?_⟩
  rw [h]
  decide

/-- C10: a submission attempt never leaves both the error and the result
slots set: each attempt's outcome is independent of the previous state (both
slots are cleared first, so the transition from any state agrees with the one
from the initial state), and at most one slot is set afterwards. -/
theorem error_and_result_mutually_exclusive (prev : AppState)
    (o : FetchOutcome) :
    ((onSubmitStep prev o).predictionResult = none ∨
      (onSubmitStep prev o).apiError = none) ∧
    onSubmitStep prev o = onSubmitStep initialAppState o := by
  cases o with
  | transportFailure m => exact ⟨Or.inl rfl, rfl⟩
  | response r =>
      cases hs : submit r with
      | ok body => simp [onSubmitStep, hs]
      | error e => simp [onSubmitStep, hs]

end LoanPredictor
